import Mathlib

/-!
Verification of the Stratum protocol core: the V2 frame-header codec
(`framing-sv2/src/header.rs`) and the V1 client/server session state
machines (`protocols/v1/src/lib.rs`), shallowly embedded in Lean.

Machine integers are modelled as `Nat` (bytes are naturals below 256,
u16/u24/u32 values are naturals below the corresponding power of two);
fallible operations return `Except`/`Option`; a Rust panic (`todo!()`,
`panic!()`) is modelled as the `none` value of an `Option` result.
-/

set_option maxRecDepth 4000

deriving instance DecidableEq for Except

namespace FramingSv2

/-- V2 frame header, from `framing-sv2/src/header.rs`: `extension_type` is a
u16, `msg_type` a u8, `msg_length` a U24 (its invariant `msg_length < 2^24`
is maintained by the two constructors below). -/
structure Header where
  extension_type : Nat
  msg_type : Nat
  msg_length : Nat
deriving DecidableEq, Repr

/-- `Header::SIZE = const_sv2::SV2_FRAME_HEADER_SIZE = 6`. -/
def Header.SIZE : Nat := 6

/-- Embedding of `Header::from_bytes`: underflow check first (returning the
missing count `SIZE - len`), then `extension_type = u16::from_le_bytes(bytes[0..2])`,
`msg_type = bytes[2]`, `msg_length = u32::from_le_bytes([bytes[3], bytes[4], bytes[5], 0])`.
Indexing uses `getD`, which agrees with the Rust indexing because the length
check guarantees the indices are in range. -/
def Header.from_bytes (bytes : List Nat) : Except Nat Header :=
  if bytes.length < Header.SIZE then
    .error (Header.SIZE - bytes.length)
  else
    .ok { extension_type := bytes.getD 0 0 + 256 * bytes.getD 1 0
          msg_type := bytes.getD 2 0
          msg_length := bytes.getD 3 0 + 256 * bytes.getD 4 0 + 65536 * bytes.getD 5 0 }

/-- Embedding of `Header::from_len`: `len.try_into().ok()?` converts a u32 to
a U24 and fails exactly when `len ≥ 2^24`. -/
def Header.from_len (len : Nat) (message_type : Nat) (extension_type : Nat) : Option Header :=
  if len < 2 ^ 24 then
    some { extension_type := extension_type, msg_type := message_type, msg_length := len }
  else
    none

/-- Embedding of `Header::channel_msg`: `extension_type & 0b0000_0000_0000_0001 == extension_type`. -/
def Header.channel_msg (h : Header) : Bool :=
  h.extension_type &&& 1 == h.extension_type

/-- Modelled from the spec: the byte-level serialization of a `Header` is done
by the `binary_sv2` Serialize derive, which is not under `src/`; per spec §3
the layout is fixed 6 bytes: bytes[0..2] little-endian u16 `extension_type`,
byte[2] u8 `msg_type`, bytes[3..6] 24-bit little-endian `msg_length`. -/
def Header.to_bytes (h : Header) : List Nat :=
  [h.extension_type % 256, h.extension_type / 256 % 256, h.msg_type,
   h.msg_length % 256, h.msg_length / 256 % 256, h.msg_length / 65536 % 256]

end FramingSv2

namespace StratumV1

/-- `ClientStatus` from `v1/src/lib.rs`. -/
inductive ClientStatus
  | Init
  | Configured
  | Subscribed
deriving DecidableEq, Repr

/-- Numeric rank of a status along the order Init < Configured < Subscribed. -/
def ClientStatus.rank : ClientStatus → Nat
  | .Init => 0
  | .Configured => 1
  | .Subscribed => 2

/-- The order Init ≤ Configured ≤ Subscribed on client statuses. -/
def statusLe (a b : ClientStatus) : Bool :=
  a.rank ≤ b.rank

/-- The V1 error variants from `v1/src/error.rs` that the embedded handlers
produce (`error.rs` is not under `src/`; the variant names are those used at
the call sites in `v1/src/lib.rs` and in the spec's §7 taxonomy). -/
inductive Error
  | InvalidJsonRpcMessageKind
  | InvalidSubmission
  | UnknownID (id : String)
  | InvalidReceiver
  | ParsingMethodError
deriving DecidableEq, Repr

/-- A `mining.notify` job announcement (`server_to_client::Notify`); of its
fields only `job_id` is consulted by the embedded code. -/
structure Notify where
  job_id : String
deriving DecidableEq, Repr

/-- An entry of the client's outstanding-request table (spec §3:
`outstanding: mapping id → {Authorize(name) | Submit}`). -/
inductive Outstanding
  | authorize (name : String)
  | submit
deriving DecidableEq, Repr

/-- Client-side session state (spec §3, SessionState (Client)); it backs the
accessors of the `IsClient` trait (`status`, `extranonce1`, `is_authorized`,
`last_notify`, `signature`, ...). -/
structure Client where
  status : ClientStatus
  extranonce1 : List Nat
  extranonce2_size : Nat
  version_rolling_mask : Option Nat
  version_rolling_min_bit : Option Nat
  authorized_names : List String
  last_notify : Option Notify
  signature : String
  outstanding : List (String × Outstanding)
deriving DecidableEq, Repr

namespace client_to_server

/-- `client_to_server::Authorize`. -/
structure Authorize where
  id : String
  name : String
  password : String
deriving DecidableEq, Repr

/-- `client_to_server::Configure`; carries the requested version-rolling
mask and min-bit count consulted via `version_rolling_mask()` and
`version_rolling_min_bit_count()`. -/
structure Configure where
  id : String
  version_rolling_mask : Option Nat
  version_rolling_min_bit_count : Option Nat
deriving DecidableEq, Repr

/-- `client_to_server::Submit`. -/
structure Submit where
  id : String
  user_name : String
  job_id : String
  extra_nonce2 : List Nat
  time : Int
  nonce : Int
  version_bits : Option Nat
deriving DecidableEq, Repr

/-- `client_to_server::Subscribe`. -/
structure Subscribe where
  id : String
  agent_signature : String
  extranonce1 : Option (List Nat)
deriving DecidableEq, Repr

end client_to_server

/-- `methods::Client2Server`. -/
inductive Client2Server
  | Authorize (a : client_to_server.Authorize)
  | Configure (c : client_to_server.Configure)
  | ExtranonceSubscribe
  | Submit (s : client_to_server.Submit)
  | Subscribe (s : client_to_server.Subscribe)
deriving DecidableEq, Repr

/-- `methods::Server2Client` (notifications a client receives). -/
inductive Server2Client
  | Notify (n : Notify)
  | SetDifficulty (difficulty : Nat)
  | SetExtranonce (extra_nonce1 : List Nat) (extra_nonce2_size : Nat)
  | SetVersionMask (version_mask : Nat)
deriving DecidableEq, Repr

/-- `methods::Server2ClientResponse`: the typed responses a client receives.
`GeneralResponse` is the transient unresolved shape; `Authorize` carries the
user name reconstructed by `into_authorize(prev_name)`; the boolean field of
`Authorize`/`Submit`/`GeneralResponse` is the outcome consulted via `is_ok()`. -/
inductive Server2ClientResponse
  | Configure (version_rolling_mask : Option Nat) (version_rolling_min_bit : Option Nat)
  | Subscribe (extra_nonce1 : List Nat) (extra_nonce2_size : Nat)
  | Authorize (id : String) (authorized : Bool) (user_name : String)
  | Submit (id : String) (result : Bool)
  | GeneralResponse (id : String) (result : Bool)
deriving DecidableEq, Repr

/-- An outbound `json_rpc::Response` produced by the server handlers; one
variant per `respond` constructor used in `IsServer::handle_request`. -/
inductive Response
  | authorize (id : String) (accepted : Bool)
  | configure (id : String) (version_rolling : Option (Nat × Nat)) (min_diff : Option Bool)
  | submit (id : String) (accepted : Bool)
  | subscribe (id : String) (subscriptions : List (String × String))
      (extra_nonce1 : List Nat) (extra_nonce2_size : Nat)
deriving DecidableEq, Repr

/-- `IsClient::id_is_authorize` over the outstanding-request table: if the
client sent an Authorize request with the given id, return the authorized
name (spec §3 and the trait doc comment; the accessor itself is
application-provided, realized here by table lookup). -/
def id_is_authorize (tbl : List (String × Outstanding)) (id : String) : Option String :=
  match tbl.lookup id with
  | some (.authorize name) => some name
  | _ => none

/-- `IsClient::id_is_submit` over the outstanding-request table: whether the
client sent a Submit request with the given id. -/
def id_is_submit (tbl : List (String × Outstanding)) (id : String) : Bool :=
  match tbl.lookup id with
  | some .submit => true
  | _ => false

/-- Embedding of `IsClient::update_response` (`v1/src/lib.rs:256`): a
`GeneralResponse` is resolved by consulting `id_is_authorize` and
`id_is_submit`; the match arms are `(Some(prev_name), false)` ⇒ Authorize,
`(None, false)` ⇒ Submit, `_` ⇒ `Err(UnknownID(id))`; every other response
variant is returned unchanged. -/
def update_response (tbl : List (String × Outstanding)) (response : Server2ClientResponse) :
    Except Error Server2ClientResponse :=
  match response with
  | .GeneralResponse id result =>
    match id_is_authorize tbl id, id_is_submit tbl id with
    | some prev_name, false => .ok (.Authorize id result prev_name)
    | none, false => .ok (.Submit id result)
    | _, _ => .error (.UnknownID id)
  | r => .ok r

/-- Embedding of `IsClient::handle_response` (`v1/src/lib.rs:299`). The
application callbacks `handle_configure`/`handle_subscribe` are modelled as
successful no-ops (the session-state side effects — adopting the negotiated
mask/min-bit, the extranonce values, and the status transitions — are
performed by the trait body itself). The `GeneralResponse` arm is
`panic!()` in the source, modelled as `none`; every other arm returns the
updated session (`some`). -/
def handle_response (c : Client) (response : Server2ClientResponse) : Option Client :=
  match response with
  | .Configure mask min_bit =>
    some { c with version_rolling_mask := mask
                  version_rolling_min_bit := min_bit
                  status := .Configured }
  | .Subscribe e1 e2size =>
    some { c with extranonce1 := e1
                  extranonce2_size := e2size
                  status := .Subscribed }
  | .Authorize _ ok name =>
    if ok then some { c with authorized_names := name :: c.authorized_names } else some c
  | .Submit _ _ => some c
  | .GeneralResponse _ _ => none

/-- Embedding of `IsClient::handle_request` (`v1/src/lib.rs:281`). The
`Notify` arm calls the application callback `handle_notify`, modelled from
the spec (§4.5: store the job as `last_notify`) since its implementations
are outside the repository, and returns `Ok(None)`. The `SetDifficulty`,
`SetExtranonce` and `SetVersionMask` arms are `todo!()` in the source — an
unconditional panic — modelled as `none`. -/
def Client.handle_request (c : Client) (request : Server2Client) :
    Option (Client × Option Response) :=
  match request with
  | .Notify n => some ({ c with last_notify := some n }, none)
  | .SetDifficulty _ => none
  | .SetExtranonce _ _ => none
  | .SetVersionMask _ => none

/-- Embedding of the outbound builder `IsClient::subscribe`
(`v1/src/lib.rs:388`): forbidden in Init (`Err(())`), otherwise builds the
Subscribe request from the session signature. The `try_into` serialization
step is not under `src/` and, per spec §8 (serialize→parse round-trips), is
modelled as always succeeding. -/
def Client.subscribe (c : Client) (id : String) (extranonce1 : Option (List Nat)) :
    Except Unit Client2Server :=
  match c.status with
  | .Init => .error ()
  | _ => .ok (.Subscribe { id := id, agent_signature := c.signature, extranonce1 := extranonce1 })

/-- Embedding of the outbound builder `IsClient::authorize`
(`v1/src/lib.rs:404`): forbidden in Init, otherwise builds the Authorize
request. -/
def Client.authorize (c : Client) (id name password : String) : Except Unit Client2Server :=
  match c.status with
  | .Init => .error ()
  | _ => .ok (.Authorize { id := id, name := name, password := password })

/-- Embedding of the outbound builder `IsClient::submit`
(`v1/src/lib.rs:416`): forbidden in Init; errors when `last_notify` is
absent; errors when `user_name` is not authorized; otherwise builds the
Submit request with `job_id` taken from `last_notify`. -/
def Client.submit (c : Client) (id user_name : String) (extra_nonce2 : List Nat)
    (time nonce : Int) (version_bits : Option Nat) : Except Unit Client2Server :=
  match c.status with
  | .Init => .error ()
  | _ =>
    match c.last_notify with
    | none => .error ()
    | some nt =>
      if c.authorized_names.contains user_name then
        .ok (.Submit { id := id, user_name := user_name, job_id := nt.job_id
                       extra_nonce2 := extra_nonce2, time := time, nonce := nonce
                       version_bits := version_bits })
      else
        .error ()

/-- Server-side session state (spec §3, SessionState (Server)); it backs the
accessors of the `IsServer` trait (`is_authorized` is membership in
`authorized_names`, `authorize` inserts into it, `extranonce2_size` and
`version_rolling_mask` read the corresponding fields). -/
structure Server where
  authorized_names : List String
  extranonce1 : List Nat
  extranonce2_size : Nat
  version_rolling_mask : Option Nat
  version_rolling_min_bit : Option Nat
deriving DecidableEq, Repr

/-- Modelled from the spec: `utils::HexU32Be::check_mask` is not under
`src/`; per spec §4.4 clause 3 and §9 (BIP 310), the call
`mask.check_mask(bits)` holds iff `(bits AND NOT mask) == 0` over 32-bit
values — the submitter may only set bits the mask permits. -/
def check_mask (mask bits : Nat) : Bool :=
  bits &&& (mask ^^^ (2 ^ 32 - 1)) == 0

/-- The application-provided callbacks of the `IsServer` trait: the
acceptance policies (`handle_authorize`, `handle_submit`), negotiation
result (`handle_configure`), subscription list (`handle_subscribe`), and
the fresh values produced by `set_extranonce1(None)` /
`set_extranonce2_size(None)` ("if not provided, create a new one"). -/
structure ServerCallbacks where
  handle_authorize : client_to_server.Authorize → Bool
  handle_configure : client_to_server.Configure → Option (Nat × Nat) × Option Bool
  handle_subscribe : client_to_server.Subscribe → List (String × String)
  handle_submit : client_to_server.Submit → Bool
  fresh_extranonce1 : List Nat
  fresh_extranonce2_size : Nat

/-- The `has_valid_version_bits` local of the Submit arm of
`IsServer::handle_request` (`v1/src/lib.rs:107`): match on
`submit.version_bits`; when present, check it against the session mask
(absent mask ⇒ false); when absent, valid iff the session mask is absent. -/
def has_valid_version_bits (s : Server) (submit : client_to_server.Submit) : Bool :=
  match submit.version_bits with
  | some a =>
    match s.version_rolling_mask with
    | some version_rolling_mask => check_mask version_rolling_mask a
    | none => false
  | none => s.version_rolling_mask.isNone

/-- The `is_valid_submission` local of the Submit arm
(`v1/src/lib.rs:118`): authorization, extranonce2 length equality, and the
version-bits check, conjoined. -/
def is_valid_submission (s : Server) (submit : client_to_server.Submit) : Bool :=
  s.authorized_names.contains submit.user_name
    && (s.extranonce2_size == submit.extra_nonce2.length)
    && has_valid_version_bits s submit

/-- Embedding of `IsServer::handle_request` (`v1/src/lib.rs:81`), returning
the handler result together with the resulting session state. The Submit
arm (`v1/src/lib.rs:106`) evaluates `is_valid_submission` and returns
`Err(InvalidSubmission)` without touching the session when it fails. -/
def Server.handle_request (cb : ServerCallbacks) (s : Server) (request : Client2Server) :
    Except Error (Option Response) × Server :=
  match request with
  | .Authorize a =>
    let authorized := cb.handle_authorize a
    let s := if authorized then { s with authorized_names := a.name :: s.authorized_names } else s
    (.ok (some (.authorize a.id authorized)), s)
  | .Configure c =>
    let s := { s with version_rolling_mask := c.version_rolling_mask
                      version_rolling_min_bit := c.version_rolling_min_bit_count }
    let res := cb.handle_configure c
    (.ok (some (.configure c.id res.1 res.2)), s)
  | .ExtranonceSubscribe => (.ok none, s)
  | .Submit submit =>
    if is_valid_submission s submit then
      (.ok (some (.submit submit.id (cb.handle_submit submit))), s)
    else
      (.error .InvalidSubmission, s)
  | .Subscribe subscribe =>
    let subscriptions := cb.handle_subscribe subscribe
    let s := { s with extranonce1 := cb.fresh_extranonce1
                      extranonce2_size := cb.fresh_extranonce2_size }
    (.ok (some (.subscribe subscribe.id subscriptions cb.fresh_extranonce1
        cb.fresh_extranonce2_size)), s)

/-- Modelled from the spec: `json_rpc::Message` is not under `src/`; per
spec §3/§4.2 a message is a Request, a Notification, or a Response. The
Method-Registry parse (`msg.try_into()`, also not under `src/`) is carried
as the `parsed` payload of the request shapes, `none` when the method is
unknown or the parameters are malformed. -/
inductive Message
  | Request (parsed : Option Client2Server)
  | Notification (parsed : Option Client2Server)
  | Response (id : String) (result : Bool)
deriving Repr

/-- `json_rpc::Message::is_response`: true exactly on the Response shape
(spec §4.2). -/
def Message.is_response : Message → Bool
  | .Response _ _ => true
  | _ => false

/-- Embedding of `IsServer::handle_message` (`v1/src/lib.rs:64`): an inbound
Response yields `Err(InvalidJsonRpcMessageKind)` (a server never issues
requests); otherwise `msg.try_into()?` parses the request — propagating a
parse error without touching the session — and dispatches to
`handle_request`. -/
def Server.handle_message (cb : ServerCallbacks) (s : Server) (msg : Message) :
    Except Error (Option Response) × Server :=
  if msg.is_response then
    (.error .InvalidJsonRpcMessageKind, s)
  else
    match msg with
    | .Request (some r) => Server.handle_request cb s r
    | .Notification (some r) => Server.handle_request cb s r
    | .Request none => (.error .ParsingMethodError, s)
    | .Notification none => (.error .ParsingMethodError, s)
    | .Response _ _ => (.error .InvalidJsonRpcMessageKind, s)

/-- The spec's Submit-validation condition (§4.4), stated in the claim's
words, to be compared with the code's `is_valid_submission`: (1) the user
name is authorized, (2) the extranonce2 length equals the session's
`extranonce2_size`, (3) if the session mask is set the version bits are
present and `(bits AND NOT mask) == 0`; if the mask is unset the version
bits are absent. -/
def valid_submission_spec (s : Server) (submit : client_to_server.Submit) : Prop :=
  submit.user_name ∈ s.authorized_names ∧
  submit.extra_nonce2.length = s.extranonce2_size ∧
  (∀ mask, s.version_rolling_mask = some mask →
    ∃ bits, submit.version_bits = some bits ∧ bits &&& (mask ^^^ (2 ^ 32 - 1)) = 0) ∧
  (s.version_rolling_mask = none → submit.version_bits = none)

/-- A concrete callback set: accept every authorize and submit, negotiate
nothing, subscribe to nothing, allocate an empty extranonce1 and
extranonce2_size 4. -/
def cb0 : ServerCallbacks :=
  { handle_authorize := fun _ => true
    handle_configure := fun _ => (none, none)
    handle_subscribe := fun _ => []
    handle_submit := fun _ => true
    fresh_extranonce1 := []
    fresh_extranonce2_size := 4 }

/-- A concrete server session: `alice` authorized, extranonce2_size 4, no
version-rolling mask. -/
def server0 : Server :=
  { authorized_names := ["alice"]
    extranonce1 := []
    extranonce2_size := 4
    version_rolling_mask := none
    version_rolling_min_bit := none }

/-- A concrete subscribed client session: `alice` authorized, a last notify
with job id `job1`. -/
def client0 : Client :=
  { status := .Subscribed
    extranonce1 := []
    extranonce2_size := 0
    version_rolling_mask := none
    version_rolling_min_bit := none
    authorized_names := ["alice"]
    last_notify := some { job_id := "job1" }
    signature := "sig"
    outstanding := [] }

/-- The same client session still in Init. -/
def clientInit : Client :=
  { client0 with status := .Init }

/-- A concrete outstanding-request table: id `7` was registered as a Submit
request. -/
def exTbl : List (String × Outstanding) :=
  [("7", .submit)]

/-- A concrete submit request from `alice` with a 4-byte extranonce2 and no
version bits. -/
def sub1 : client_to_server.Submit :=
  { id := "1"
    user_name := "alice"
    job_id := "job1"
    extra_nonce2 := [0, 0, 0, 0]
    time := 0
    nonce := 0
    version_bits := none }

end StratumV1

namespace FramingSv2

/-- C7: decoding fewer than 6 bytes fails with `NeedMore(6 − len)` and
produces no header; decoding any sequence of at least 6 bytes succeeds,
with `extension_type` the little-endian u16 of bytes[0..2], `msg_type`
byte[2], and `msg_length` the 24-bit little-endian value of bytes[3..6]. -/
theorem from_bytes_spec (bytes : List Nat) :
    (bytes.length < 6 → Header.from_bytes bytes = .error (6 - bytes.length)) ∧
    (6 ≤ bytes.length → ∃ h, Header.from_bytes bytes = .ok h) ∧
    (∀ b0 b1 b2 b3 b4 b5 rest, bytes = b0 :: b1 :: b2 :: b3 :: b4 :: b5 :: rest →
      Header.from_bytes bytes =
        .ok { extension_type := b0 + 256 * b1
              msg_type := b2
              msg_length := b3 + 256 * b4 + 65536 * b5 }) := by
  refine ⟨fun hlt => ?_, fun hge => ?_, fun b0 b1 b2 b3 b4 b5 rest hb => ?_⟩
  · simp [Header.from_bytes, Header.SIZE, hlt]
  · unfold Header.from_bytes
    rw [if_neg (by simp [Header.SIZE]; omega)]
    exact ⟨_, rfl⟩
  · subst hb
    simp [Header.from_bytes, Header.SIZE]

/-- C7 witness: `decode([0x01, 0x00, 0x05])` is `NeedMore(3)`, and a full
6-byte input decodes to the expected header. -/
theorem from_bytes_spec_witness :
    Header.from_bytes [1, 0, 5] = .error 3 ∧
    Header.from_bytes [1, 0, 5, 7, 0, 0] =
      .ok { extension_type := 1, msg_type := 5, msg_length := 7 } :=
  ⟨(from_bytes_spec [1, 0, 5]).1 (by decide),
   (from_bytes_spec [1, 0, 5, 7, 0, 0]).2.2 1 0 5 7 0 0 [] rfl⟩

/-- C8: for every u16 extension type, u8 message type and length below 2^24,
`from_len` succeeds and decoding the 6-byte little-endian serialization of
the resulting header returns the same header; for lengths of 2^24 and
above, `from_len` returns no header. -/
theorem from_len_from_bytes_roundtrip (extension_type msg_type len : Nat)
    (hext : extension_type < 2 ^ 16) (_hmt : msg_type < 2 ^ 8) :
    (len < 2 ^ 24 →
      Header.from_len len msg_type extension_type =
        some { extension_type := extension_type, msg_type := msg_type, msg_length := len } ∧
      Header.from_bytes
          (Header.to_bytes { extension_type := extension_type, msg_type := msg_type,
                             msg_length := len }) =
        .ok { extension_type := extension_type, msg_type := msg_type, msg_length := len }) ∧
    (2 ^ 24 ≤ len → Header.from_len len msg_type extension_type = none) := by
  constructor
  · intro hlen
    constructor
    · unfold Header.from_len
      rw [if_pos hlen]
    · simp only [Header.to_bytes, Header.from_bytes, Header.SIZE]
      norm_num [List.getD]
      refine ⟨?_, ?_⟩ <;> omega
  · intro hlen
    simp [Header.from_len]
    omega

/-- C8 witness: a concrete round trip at length 300, and `from_len` failing
at exactly 2^24. -/
theorem from_len_from_bytes_roundtrip_witness :
    Header.from_len 300 7 1 = some { extension_type := 1, msg_type := 7, msg_length := 300 } ∧
    Header.from_bytes
        (Header.to_bytes { extension_type := 1, msg_type := 7, msg_length := 300 }) =
      .ok { extension_type := 1, msg_type := 7, msg_length := 300 } ∧
    Header.from_len (2 ^ 24) 0 0 = none :=
  ⟨((from_len_from_bytes_roundtrip 1 7 300 (by decide) (by decide)).1 (by decide)).1,
   ((from_len_from_bytes_roundtrip 1 7 300 (by decide) (by decide)).1 (by decide)).2,
   (from_len_from_bytes_roundtrip 0 0 (2 ^ 24) (by decide) (by decide)).2 (by decide)⟩

/-- C9: `channel_msg` holds exactly when the extension type is 0 or 1, i.e.
when no bit other than the lowest is set. -/
theorem channel_msg_iff (h : Header) :
    h.channel_msg = true ↔ h.extension_type = 0 ∨ h.extension_type = 1 := by
  unfold Header.channel_msg
  rw [Nat.and_one_is_mod]
  simp only [beq_iff_eq]
  omega

end FramingSv2

namespace StratumV1

/-- C1: counterexample — with id `7` registered in the outstanding table as
Submit, `update_response` on a GeneralResponse with id `7` returns the
`UnknownID` error, not the Submit variant the claim requires. -/
theorem update_response_submit_id_counterexample :
    id_is_submit exTbl "7" = true ∧
    id_is_authorize exTbl "7" = none ∧
    update_response exTbl (.GeneralResponse "7" true) = .error (.UnknownID "7") ∧
    update_response exTbl (.GeneralResponse "7" true) ≠ .ok (.Submit "7" true) := by
  decide

/-- C1 (amended): resolving a GeneralResponse with identifier `id`: if `id`
was registered as Authorize(name) (and not as Submit) the result is the
Authorize variant carrying `user_name = name`; if `id` is not registered at
all the result is the Submit variant; if `id` was registered as Submit the
result is the `UnknownID(id)` error; every non-GeneralResponse input is
returned unchanged. -/
theorem update_response_resolution (tbl : List (String × Outstanding)) (id : String)
    (result : Bool) :
    (∀ name, id_is_authorize tbl id = some name → id_is_submit tbl id = false →
      update_response tbl (.GeneralResponse id result) = .ok (.Authorize id result name)) ∧
    (id_is_authorize tbl id = none → id_is_submit tbl id = false →
      update_response tbl (.GeneralResponse id result) = .ok (.Submit id result)) ∧
    (id_is_submit tbl id = true →
      update_response tbl (.GeneralResponse id result) = .error (.UnknownID id)) ∧
    (∀ r : Server2ClientResponse, (∀ i res, r ≠ .GeneralResponse i res) →
      update_response tbl r = .ok r) := by
  refine ⟨fun name h1 h2 => ?_, fun h1 h2 => ?_, fun h => ?_, fun r hr => ?_⟩
  · simp [update_response, h1, h2]
  · simp [update_response, h1, h2]
  · cases hA : id_is_authorize tbl id <;> simp [update_response, hA, h]
  · cases r with
    | GeneralResponse i res => exact absurd rfl (hr i res)
    | Configure m mb => rfl
    | Subscribe e1 e2 => rfl
    | Authorize i ok name => rfl
    | Submit i res => rfl

/-- C1 witness: concrete resolutions — an id registered as Authorize, an
unregistered id, and a pass-through of an already-typed response. -/
theorem update_response_resolution_witness :
    update_response [("3", .authorize "alice")] (.GeneralResponse "3" true) =
      .ok (.Authorize "3" true "alice") ∧
    update_response [] (.GeneralResponse "9" false) = .ok (.Submit "9" false) ∧
    update_response exTbl (.Submit "7" true) = .ok (.Submit "7" true) :=
  ⟨(update_response_resolution [("3", .authorize "alice")] "3" true).1 "alice"
      (by decide) (by decide),
   (update_response_resolution [] "9" false).2.1 (by decide) (by decide),
   (update_response_resolution exTbl "7" true).2.2.2 (.Submit "7" true)
      (fun i res h => Server2ClientResponse.noConfusion h)⟩

/-- The status order is reflexive. -/
theorem statusLe_refl (a : ClientStatus) : statusLe a a = true := by
  cases a <;> rfl

/-- C2: counterexample — a client session in Subscribed that handles a
Configure response has its status set back to Configured, a downgrade along
the order Init < Configured < Subscribed. -/
theorem handle_response_downgrade_counterexample :
    client0.status = ClientStatus.Subscribed ∧
    Option.map Client.status (handle_response client0 (.Configure none none)) =
      some ClientStatus.Configured ∧
    statusLe ClientStatus.Subscribed ClientStatus.Configured = false := by
  decide

/-- C2 (amended): over any response handled by `handle_response`, the client
status is non-decreasing along Init < Configured < Subscribed, except that
a Configure response handled while the session is Subscribed sets the
status back to Configured. -/
theorem handle_response_status_monotone (c : Client) (r : Server2ClientResponse) (c' : Client)
    (h : handle_response c r = some c') :
    statusLe c.status c'.status = true ∨
      (c.status = .Subscribed ∧ c'.status = .Configured ∧ ∃ m mb, r = .Configure m mb) := by
  cases r with
  | Configure m mb =>
    simp only [handle_response, Option.some.injEq] at h
    subst h
    cases hs : c.status with
    | Init => left; rfl
    | Configured => left; rfl
    | Subscribed => exact Or.inr ⟨rfl, rfl, m, mb, rfl⟩
  | Subscribe e1 e2 =>
    simp only [handle_response, Option.some.injEq] at h
    subst h
    cases c.status <;> exact Or.inl rfl
  | Authorize i ok name =>
    left
    cases ok with
    | false =>
      simp only [handle_response, Bool.false_eq_true, if_false, Option.some.injEq] at h
      subst h
      exact statusLe_refl c.status
    | true =>
      simp only [handle_response, if_true, Option.some.injEq] at h
      subst h
      exact statusLe_refl c.status
  | Submit i res =>
    simp only [handle_response, Option.some.injEq] at h
    subst h
    exact Or.inl (statusLe_refl c.status)
  | GeneralResponse i res =>
    exact Option.noConfusion h

/-- C2 witness: handling a Submit response leaves the status of the
concrete subscribed session unchanged, satisfying the non-decreasing
disjunct. -/
theorem handle_response_status_monotone_witness :
    statusLe client0.status client0.status = true ∨
      (client0.status = .Subscribed ∧ client0.status = .Configured ∧
        ∃ m mb, Server2ClientResponse.Submit "1" true = .Configure m mb) :=
  handle_response_status_monotone client0 (.Submit "1" true) client0 (by decide)

/-- C4: the client `handle_request` arms for the SetDifficulty,
SetExtranonce and SetVersionMask notifications are `todo!()` in the source
and panic (modelled as `none`) instead of updating the corresponding
session field, for every session and every payload. -/
theorem client_handle_request_stubbed_notifications (c : Client) (d : Nat) (e1 : List Nat)
    (e2 : Nat) (m : Nat) :
    Client.handle_request c (.SetDifficulty d) = none ∧
    Client.handle_request c (.SetExtranonce e1 e2) = none ∧
    Client.handle_request c (.SetVersionMask m) = none :=
  ⟨rfl, rfl, rfl⟩

/-- C5: a server receiving any message for which `is_response` holds
returns the `InvalidJsonRpcMessageKind` error, dispatches nothing, and
leaves the session state unchanged. -/
theorem server_handle_message_rejects_responses (cb : ServerCallbacks) (s : Server)
    (msg : Message) (h : msg.is_response = true) :
    Server.handle_message cb s msg = (.error .InvalidJsonRpcMessageKind, s) := by
  simp [Server.handle_message, h]

/-- C5 witness: a concrete inbound Response at the concrete server session. -/
theorem server_handle_message_rejects_responses_witness :
    Server.handle_message cb0 server0 (.Response "1" true) =
      (.error .InvalidJsonRpcMessageKind, server0) :=
  server_handle_message_rejects_responses cb0 server0 (.Response "1" true) rfl

/-- The code's boolean `is_valid_submission` agrees with the spec's
three-clause condition. -/
theorem is_valid_submission_iff (s : Server) (submit : client_to_server.Submit) :
    is_valid_submission s submit = true ↔ valid_submission_spec s submit := by
  unfold is_valid_submission has_valid_version_bits valid_submission_spec check_mask
  have hsz : (s.extranonce2_size == submit.extra_nonce2.length) = true ↔
      submit.extra_nonce2.length = s.extranonce2_size := by
    rw [beq_iff_eq]
    exact eq_comm
  cases hvb : submit.version_bits with
  | none =>
    cases hm : s.version_rolling_mask with
    | none => simp [hm, hsz]
    | some m => simp [hm]
  | some bits =>
    cases hm : s.version_rolling_mask with
    | none => simp [hm]
    | some m => simp [hm, hsz, and_assoc]

/-- C3: a server handling an inbound Submit returns a Response exactly when
the user is authorized, the extranonce2 length matches the session's
`extranonce2_size`, and the version-bits clause holds; when any clause
fails it returns `InvalidSubmission`, emits no Response, and leaves the
session state unchanged (the session is also unchanged on success: the
Submit arm only reads it). -/
theorem server_handle_request_submit_validation (cb : ServerCallbacks) (s : Server)
    (submit : client_to_server.Submit) :
    (valid_submission_spec s submit →
      Server.handle_request cb s (.Submit submit) =
        (.ok (some (.submit submit.id (cb.handle_submit submit))), s)) ∧
    (¬ valid_submission_spec s submit →
      Server.handle_request cb s (.Submit submit) = (.error .InvalidSubmission, s)) := by
  constructor
  · intro hv
    have hb : is_valid_submission s submit = true := (is_valid_submission_iff s submit).mpr hv
    simp [Server.handle_request, hb]
  · intro hv
    have hb : is_valid_submission s submit = false := by
      cases hcase : is_valid_submission s submit
      · rfl
      · exact absurd ((is_valid_submission_iff s submit).mp hcase) hv
    simp [Server.handle_request, hb]

/-- C3 witness: the concrete submit from `alice` is accepted and answered
at the concrete session, and rejected without a Response or state change
when the session expects a different extranonce2 length. -/
theorem server_handle_request_submit_validation_witness :
    Server.handle_request cb0 server0 (.Submit sub1) =
      (.ok (some (.submit "1" true)), server0) ∧
    Server.handle_request cb0 { server0 with extranonce2_size := 2 } (.Submit sub1) =
      (.error .InvalidSubmission, { server0 with extranonce2_size := 2 }) := by
  constructor
  · exact (server_handle_request_submit_validation cb0 server0 sub1).1
      ⟨by decide, by decide, fun mask hmask => Option.noConfusion hmask, fun _ => rfl⟩
  · exact (server_handle_request_submit_validation cb0
      { server0 with extranonce2_size := 2 } sub1).2
      (fun hv => absurd hv.2.1 (by decide))

/-- C6: in Init each outbound builder (`subscribe`, `authorize`, `submit`)
returns the state-violation error (the unit error of the source) and
produces no message; in any other status, `submit` errors unless
`last_notify` is present and the user name is authorized, and on success
the produced Submit message carries the `job_id` taken from `last_notify`. -/
theorem client_builders_state_violation (c : Client) (id name password user_name : String)
    (extranonce1 : Option (List Nat)) (extra_nonce2 : List Nat) (time nonce : Int)
    (version_bits : Option Nat) :
    (c.status = .Init →
      c.subscribe id extranonce1 = .error () ∧
      c.authorize id name password = .error () ∧
      c.submit id user_name extra_nonce2 time nonce version_bits = .error ()) ∧
    (c.status ≠ .Init →
      (∀ nt, c.last_notify = some nt → user_name ∈ c.authorized_names →
        c.submit id user_name extra_nonce2 time nonce version_bits =
          .ok (.Submit { id := id, user_name := user_name, job_id := nt.job_id
                         extra_nonce2 := extra_nonce2, time := time, nonce := nonce
                         version_bits := version_bits })) ∧
      ((c.last_notify = none ∨ user_name ∉ c.authorized_names) →
        c.submit id user_name extra_nonce2 time nonce version_bits = .error ())) := by
  constructor
  · intro h0
    exact ⟨by simp [Client.subscribe, h0], by simp [Client.authorize, h0],
           by simp [Client.submit, h0]⟩
  · intro hne
    constructor
    · intro nt hnt hu
      cases hst : c.status with
      | Init => exact absurd hst hne
      | Configured => simp [Client.submit, hst, hnt, hu]
      | Subscribed => simp [Client.submit, hst, hnt, hu]
    · intro hor
      cases hst : c.status with
      | Init => exact absurd hst hne
      | Configured =>
        cases hor with
        | inl hn => simp [Client.submit, hst, hn]
        | inr hu =>
          cases hnt : c.last_notify with
          | none => simp [Client.submit, hst, hnt]
          | some nt => simp [Client.submit, hst, hnt, hu]
      | Subscribed =>
        cases hor with
        | inl hn => simp [Client.submit, hst, hn]
        | inr hu =>
          cases hnt : c.last_notify with
          | none => simp [Client.submit, hst, hnt]
          | some nt => simp [Client.submit, hst, hnt, hu]

/-- C6 witness: the three builders all fail on the Init session, and the
subscribed session's `submit` succeeds, carrying the job id `job1` from
`last_notify`. -/
theorem client_builders_state_violation_witness :
    clientInit.subscribe "1" none = .error () ∧
    clientInit.authorize "1" "alice" "pw" = .error () ∧
    clientInit.submit "1" "alice" [] 0 0 none = .error () ∧
    client0.submit "1" "alice" [] 0 0 none =
      .ok (.Submit { id := "1", user_name := "alice", job_id := "job1", extra_nonce2 := []
                     time := 0, nonce := 0, version_bits := none }) := by
  have h1 := (client_builders_state_violation clientInit "1" "alice" "pw" "alice"
      none [] 0 0 none).1 rfl
  have h2 := (client_builders_state_violation client0 "1" "alice" "pw" "alice"
      none [] 0 0 none).2 (by decide)
  exact ⟨h1.1, h1.2.1, h1.2.2, h2.1 { job_id := "job1" } rfl (by decide)⟩

/-- C10: whenever `update_response` returns Ok, the returned response is
never the GeneralResponse variant, so the panicking GeneralResponse arm of
`handle_response` is unreachable through `handle_message`: handling the
resolved response always returns a value. -/
theorem update_response_never_general (tbl : List (String × Outstanding)) (c : Client)
    (r r' : Server2ClientResponse) (h : update_response tbl r = .ok r') :
    (∀ id result, r' ≠ .GeneralResponse id result) ∧
    ∃ c', handle_response c r' = some c' := by
  have hng : ∀ id result, r' ≠ .GeneralResponse id result := by
    cases r with
    | GeneralResponse i res =>
      cases hA : id_is_authorize tbl i with
      | none =>
        cases hS : id_is_submit tbl i with
        | false =>
          simp only [update_response, hA, hS, Except.ok.injEq] at h
          subst h
          intro id result hcontra
          exact Server2ClientResponse.noConfusion hcontra
        | true =>
          simp only [update_response, hA, hS] at h
          exact Except.noConfusion h
      | some name =>
        cases hS : id_is_submit tbl i with
        | false =>
          simp only [update_response, hA, hS, Except.ok.injEq] at h
          subst h
          intro id result hcontra
          exact Server2ClientResponse.noConfusion hcontra
        | true =>
          simp only [update_response, hA, hS] at h
          exact Except.noConfusion h
    | Configure m mb =>
      cases h
      intro id result hcontra
      exact Server2ClientResponse.noConfusion hcontra
    | Subscribe e1 e2 =>
      cases h
      intro id result hcontra
      exact Server2ClientResponse.noConfusion hcontra
    | Authorize i ok name =>
      cases h
      intro id result hcontra
      exact Server2ClientResponse.noConfusion hcontra
    | Submit i res =>
      cases h
      intro id result hcontra
      exact Server2ClientResponse.noConfusion hcontra
  refine ⟨hng, ?_⟩
  cases r' with
  | GeneralResponse i res => exact absurd rfl (hng i res)
  | Configure m mb => exact ⟨_, rfl⟩
  | Subscribe e1 e2 => exact ⟨_, rfl⟩
  | Authorize i ok name =>
    cases ok
    · exact ⟨_, rfl⟩
    · exact ⟨_, rfl⟩
  | Submit i res => exact ⟨c, rfl⟩

/-- C10 witness: resolving a GeneralResponse for an unregistered id yields
the Submit variant, which `handle_response` handles without reaching the
panicking arm. -/
theorem update_response_never_general_witness :
    (∀ id result, Server2ClientResponse.Submit "9" false ≠ .GeneralResponse id result) ∧
    ∃ c', handle_response client0 (.Submit "9" false) = some c' :=
  update_response_never_general [] client0 (.GeneralResponse "9" false) (.Submit "9" false)
    (by decide)

end StratumV1
